import Mathlib

/-!
Verification of the energy-analyzer CLI (`src/energy_analyzer.py`).

The program is embedded shallowly: Python floats are modelled as exact
rationals (`ℚ`), the interactive input stream as a list of already-lexed
input lines, console and report-file output as lists of strings, and the
`ValueError` raised by `max()` on an empty sequence as an `Except.error`
result.  All definitions follow the Python source; theorems at the end
settle the specification claims.
-/

namespace EnergyAnalyzer

/-- ANSI colour code, from the source header. -/
def CYN : String := "\x1b[96m"

/-- ANSI colour code, from the source header. -/
def GRN : String := "\x1b[92m"

/-- ANSI colour code, from the source header. -/
def YEL : String := "\x1b[93m"

/-- ANSI reset code, from the source header. -/
def RST : String := "\x1b[0m"

/-- ANSI bold code, from the source header. -/
def BOLD : String := "\x1b[1m"

/-- One line typed at an `ask_int` prompt, after `input(prompt).strip()`:
either the empty string, text on which Python `int(s)` raises
`ValueError`, or text parsing to the integer `v`. -/
inductive IntLine where
  | empty
  | bad
  | lit (v : ℤ)

/-- Value domain of Python `float(s)`: a finite value (modelled exactly
as a rational), one of the two infinities (text such as `inf`, `-inf` or
the overflowing `1e999`), or NaN (text such as `nan`) — none of these
raises `ValueError`, so all of them reach the range checks of
`ask_float`. -/
inductive PyFloat where
  | finite (v : ℚ)
  | inf
  | ninf
  | nan
deriving DecidableEq

/-- IEEE-754 strict less-than as Python evaluates `<` and `>` on floats:
every comparison against NaN is false, minus infinity is below and plus
infinity above every finite value, and finite values compare as
rationals. -/
def pyLt : PyFloat → PyFloat → Bool
  | .nan, _ => false
  | _, .nan => false
  | .ninf, .ninf => false
  | .ninf, _ => true
  | _, .ninf => false
  | .inf, _ => false
  | .finite _, .inf => true
  | .finite a, .finite b => decide (a < b)

/-- IEEE-754 less-or-equal on Python floats (false on NaN operands). -/
def pyLe : PyFloat → PyFloat → Bool
  | .nan, _ => false
  | _, .nan => false
  | .ninf, _ => true
  | _, .ninf => false
  | _, .inf => true
  | .inf, _ => false
  | .finite a, .finite b => decide (a ≤ b)

/-- One line typed at an `ask_float` prompt: empty, text on which
`float(s)` raises `ValueError`, or text parsing to the Python float `v`,
which may be finite, infinite or NaN. -/
inductive FloatLine where
  | empty
  | bad
  | lit (v : PyFloat)

/-- One iteration of the `ask_int` loop body (source lines 13-28):
`none` means the attempt was rejected (a diagnostic is printed and the
loop continues), `some v` means `return v`. -/
def askIntStep (low high : Option ℤ) : IntLine → Option ℤ
  | .empty => none
  | .bad => none
  | .lit v =>
      if Option.any (fun l => decide (v < l)) low then none
      else if Option.any (fun h => decide (h < v)) high then none
      else some v

/-- Function `ask_int` over a stream of input lines: the first accepted
attempt is returned; an exhausted stream models the loop still waiting. -/
def askInt (low high : Option ℤ) : List IntLine → Option ℤ
  | [] => none
  | s :: rest =>
      match askIntStep low high s with
      | some v => some v
      | none => askInt low high rest

/-- One iteration of the `ask_float` loop body (source lines 32-47): the
bounds the program ever passes are the finite literals `0` and `24` or
`None`, and the comparisons `v < low` and `v > high` are IEEE float
comparisons, both false when `v` is NaN. -/
def askFloatStep (low high : Option ℚ) : FloatLine → Option PyFloat
  | .empty => none
  | .bad => none
  | .lit v =>
      if Option.any (fun l => pyLt v (.finite l)) low then none
      else if Option.any (fun h => pyLt (.finite h) v) high then none
      else some v

/-- Function `ask_float` over a stream of input lines. -/
def askFloat (low high : Option ℚ) : List FloatLine → Option PyFloat
  | [] => none
  | s :: rest =>
      match askFloatStep low high s with
      | some v => some v
      | none => askFloat low high rest

/-- The per-device record built in `collect_devices` (source line 71),
a dict with keys `name`, `watts`, `hours`, `qty` and `kwh_day`. -/
structure Device where
  name : String
  watts : ℚ
  hours : ℚ
  qty : ℤ
  kwh_day : ℚ
deriving DecidableEq

/-- The raw per-device answers of one loop iteration of `collect_devices`:
the stripped name text and the numeric values returned by the validated
prompts, taken here to be finite (see `validators_bounded` and its
counterexample for the NaN escape of `ask_float`). -/
structure DevIn where
  rawName : String
  watts : ℚ
  hours : ℚ
  qty : ℤ

/-- Decimal digit character: `digChar d` is the character for digit `d`. -/
def digChar (d : ℕ) : Char := Char.ofNat (48 + d)

/-- Decimal digits of a natural number, most significant first; the fuel
argument bounds the recursion and is always sufficient at `n + 1`. -/
def natStrAux : ℕ → ℕ → List Char
  | 0, _ => []
  | fuel + 1, n => if n < 10 then [digChar n] else natStrAux fuel (n / 10) ++ [digChar (n % 10)]

/-- Decimal digits of a natural number, most significant first. -/
def natDigits (n : ℕ) : List Char := natStrAux (n + 1) n

/-- Decimal rendering of a natural number. -/
def natStr (n : ℕ) : String := ⟨natDigits n⟩

/-- Python `str` of an integer. -/
def intStr (m : ℤ) : String := if m < 0 then "-" ++ natStr m.natAbs else natStr m.natAbs

/-- One record of `collect_devices` (source lines 66-71): a blank stripped
name defaults to `Device<i>` for the 1-based index `i`, and
`kwh_day = (watts * hours * qty) / 1000.0`. -/
def mkDevice (i : ℕ) (inp : DevIn) : Device :=
  { name := if inp.rawName = "" then "Device" ++ natStr i else inp.rawName
    watts := inp.watts
    hours := inp.hours
    qty := inp.qty
    kwh_day := inp.watts * inp.hours * (inp.qty : ℚ) / 1000 }

/-- Source `collect_devices(n)` (lines 61-72): the loop
`for i in range(1, n + 1)` builds exactly one record per iteration;
`supply i` stands for the answers typed during iteration `i`. -/
def collect_devices (n : ℕ) (supply : ℕ → DevIn) : List Device :=
  (List.range n).map (fun j => mkDevice (j + 1) (supply (j + 1)))

/-- Source line 76: `total_kwh_day = sum(d["kwh_day"] for d in devices)`;
Python `sum` folds from the left starting at `0`. -/
def total_kwh_day (devices : List Device) : ℚ :=
  devices.foldl (fun acc d => acc + d.kwh_day) 0

/-- Source line 77: `total_kwh_month = total_kwh_day * days`. -/
def total_kwh_month (devices : List Device) (days : ℤ) : ℚ :=
  total_kwh_day devices * (days : ℚ)

/-- Source line 78: `est_bill = total_kwh_month * tariff`. -/
def est_bill (devices : List Device) (days : ℤ) (tariff : ℚ) : ℚ :=
  total_kwh_month devices days * tariff

/-- One comparison step of Python `max(devices, key=lambda d: d["kwh_day"])`:
the running best is replaced only when the new key is strictly greater. -/
def maxStep (b y : Device) : Device := if b.kwh_day < y.kwh_day then y else b

/-- Python `max(devices, key=lambda d: d["kwh_day"])` (source line 79):
`none` models the `ValueError` raised on an empty sequence. -/
def pymax : List Device → Option Device
  | [] => none
  | x :: xs => some (xs.foldl maxStep x)

/-- Computable floor of a rational (`q.num / q.den` with flooring integer
division); used instead of `Int.floor` so concrete runs evaluate. -/
def qfloor (q : ℚ) : ℤ := q.num / q.den

/-- Python `int()` applied to a float: truncation toward zero. -/
def pyInt (q : ℚ) : ℤ := if q < 0 then -qfloor (-q) else qfloor q

/-- Round a rational to the nearest integer, ties to even, matching the
IEEE rounding used when CPython formats a float to a fixed number of
decimal places. -/
def rhe (q : ℚ) : ℤ :=
  let f := qfloor q
  let r := q - (f : ℚ)
  if r < 1 / 2 then f
  else if 1 / 2 < r then f + 1
  else if f % 2 = 0 then f else f + 1

/-- Exactly `k` decimal digits of `n < 10 ^ k`, most significant first
(leading zeros kept), for the fractional part of a fixed-point format. -/
def fracPad : ℕ → ℕ → List Char
  | 0, _ => []
  | k + 1, n => digChar (n / 10 ^ k) :: fracPad k (n % 10 ^ k)

/-- Character list of the CPython fixed-point format of `q` with `k`
decimal places: sign, integer digits, a dot, then exactly `k` fractional
digits of the half-even-rounded value. -/
def fmtFixedL (q : ℚ) (k : ℕ) : List Char :=
  let m := rhe (q * (10 : ℚ) ^ k)
  let n := m.natAbs
  (if m < 0 then ['-'] else []) ++ natDigits (n / 10 ^ k) ++ '.' :: fracPad k (n % 10 ^ k)

/-- CPython fixed-point float formatting, the `.1f`, `.2f` and `.3f`
format specs of the source (for `k ≥ 1`). -/
def fmtFixed (q : ℚ) (k : ℕ) : String := ⟨fmtFixedL q k⟩

/-- Insert a `','` after every third character of a reversed digit list,
the recursive core of the CPython thousands grouping. -/
def groupRev (l : List Char) : List Char :=
  if _h : l.length ≤ 3 then l
  else l.take 3 ++ ',' :: groupRev (l.drop 3)
termination_by l.length
decreasing_by
  simp only [List.length_drop]
  omega

/-- Thousands grouping of a digit list (most significant first). -/
def groupDigits (l : List Char) : List Char := (groupRev l.reverse).reverse

/-- Character list of the CPython thousands-grouped two-decimal format,
like `fmtFixedL q 2` but with the integer digits grouped in threes by
commas. -/
def fmtGrouped2L (q : ℚ) : List Char :=
  let m := rhe (q * (10 : ℚ) ^ 2)
  let n := m.natAbs
  (if m < 0 then ['-'] else []) ++ groupDigits (natDigits (n / 10 ^ 2)) ++ '.' :: fracPad 2 (n % 10 ^ 2)

/-- CPython thousands-grouped two-decimal formatting, the format spec
of the estimated-bill console line (source line 97). -/
def fmtGrouped2 (q : ℚ) : String := ⟨fmtGrouped2L q⟩

/-- Python `str.ljust`: pad on the right with spaces up to width `w`. -/
def pyLjust (s : String) (w : ℕ) : String := s ++ ⟨List.replicate (w - s.length) ' '⟩

/-- Python right alignment (format specs such as `:7d`, `:>7`, `:7.1f`):
pad on the left with spaces up to width `w`. -/
def pyRjust (s : String) (w : ℕ) : String := ⟨List.replicate (w - s.length) ' '⟩ ++ s

/-- Source helper `pad` (lines 49-54): truncate with a trailing
ellipsis when the text exceeds the column width, else left justify. -/
def pad (text : String) (width : ℕ) : String :=
  if width < text.length then ⟨text.data.take (width - 1)⟩ ++ "…"
  else pyLjust text width

/-- Remove every comma of a string (used to compare the thousands-grouped
console bill with the plain report-file bill). -/
def stripCommas (s : String) : String := ⟨s.data.filter (fun c => !(c == ','))⟩

/-- Strip leading and trailing spaces (used to compare a padded console
table cell with the corresponding padded report-file column). -/
def trimS (s : String) : String :=
  ⟨((s.data.dropWhile (fun c => c == ' ')).reverse.dropWhile (fun c => c == ' ')).reverse⟩

/-- Fractional decimal digits of `q ∈ [0, 1)` up to the given fuel,
stopping at an exact zero remainder. -/
def fracExpand : ℕ → ℚ → List Char
  | 0, _ => []
  | fuel + 1, q =>
      if q = 0 then []
      else digChar (qfloor (q * 10)).toNat :: fracExpand fuel (q * 10 - (qfloor (q * 10) : ℚ))

/-- Python `str(float)` as used for the raw tariff line of the report
file, modelled for floats whose value has a finite decimal expansion
(every validated tariff a user can type): sign, integer part, a dot, then
the fractional digits, with a single `0` when the value is integral. -/
def floatRepr (q : ℚ) : String :=
  let s : String := if q < 0 then "-" else ""
  let a := |q|
  let ip := (qfloor a).toNat
  let fr := a - (qfloor a : ℚ)
  s ++ natStr ip ++ "." ++ (if fr = 0 then "0" else ⟨fracExpand 17 fr⟩)

/-- Column width of the `Device` column (source line 84). -/
def w1 : ℕ := 20

/-- Column width of the `Watts` column. -/
def w2 : ℕ := 7

/-- Column width of the `Hours` column. -/
def w3 : ℕ := 7

/-- Column width of the `Qty` column. -/
def w4 : ℕ := 5

/-- Column width of the `kWh/day` column. -/
def w5 : ℕ := 10

/-- Source line 85: `total_width = w1 + w2 + w3 + w4 + w5 + 8`. -/
def total_width : ℕ := w1 + w2 + w3 + w4 + w5 + 8

/-- The horizontal rule printed above and below the table
(`"-" * total_width`, source lines 86, 88 and 91). -/
def hrule : String := ⟨List.replicate total_width '-'⟩

/-- Console header row: the five padded column titles joined by the
pipe separators that `print` renders with single spaces around each
pipe (source line 87). -/
def headerRow : String :=
  pad "Device" w1 ++ " | " ++ pad "Watts" w2 ++ " | " ++ pad "Hours" w3 ++ " | " ++
    pad "Qty" w4 ++ " | " ++ pad "kWh/day" w5

/-- Watts cell of a console table row: the truncated watts integer as
text, padded to `w2` (source line 90). -/
def consoleWattsCell (d : Device) : String := pad (intStr (pyInt d.watts)) w2

/-- Hours cell of a console table row: the hours value formatted to one
decimal place, padded to `w3` (source line 90). -/
def consoleHoursCell (d : Device) : String := pad (fmtFixed d.hours 1) w3

/-- Quantity cell of a console table row: the quantity integer as text,
padded to `w4` (source line 90). -/
def consoleQtyCell (d : Device) : String := pad (intStr d.qty) w4

/-- kWh/day cell of a console table row: the kwh_day value formatted to
three decimal places, padded to `w5` (source line 90). -/
def consoleKwhCell (d : Device) : String := pad (fmtFixed d.kwh_day 3) w5

/-- One console table row (source line 90). -/
def deviceRow (d : Device) : String :=
  pad d.name w1 ++ " | " ++ consoleWattsCell d ++ " | " ++ consoleHoursCell d ++ " | " ++
    consoleQtyCell d ++ " | " ++ consoleKwhCell d

/-- Total daily kWh as printed in the console summary (`:.3f`, line 95). -/
def consoleTotalStr (devices : List Device) : String := fmtFixed (total_kwh_day devices) 3

/-- Billing-cycle kWh as printed in the console summary (`:.3f`, line 96). -/
def consoleCycleStr (devices : List Device) (days : ℤ) : String :=
  fmtFixed (total_kwh_month devices days) 3

/-- Estimated bill as printed in the console summary (`:,.2f`, line 97). -/
def consoleBillStr (devices : List Device) (days : ℤ) (tariff : ℚ) : String :=
  fmtGrouped2 (est_bill devices days tariff)

/-- Daily kWh of the top device as printed in the console summary (`:.3f`, line 98). -/
def consoleTopKwhStr (top : Device) : String := fmtFixed top.kwh_day 3

/-- Console summary line for the daily total (source line 95). -/
def summaryTotalLine (devices : List Device) : String :=
  "  Total daily consumption      : " ++ consoleTotalStr devices ++ " kWh"

/-- Console summary line for the billing cycle (source line 96). -/
def summaryCycleLine (devices : List Device) (days : ℤ) : String :=
  "  Billing cycle consumption    : " ++ consoleCycleStr devices days ++
    " kWh (days=" ++ intStr days ++ ")"

/-- Console summary line for the estimated bill (source line 97). -/
def summaryBillLine (devices : List Device) (days : ℤ) (tariff : ℚ) : String :=
  "  Estimated bill @ ₹" ++ fmtFixed tariff 2 ++ "/kWh : " ++ YEL ++ "₹" ++
    consoleBillStr devices days tariff ++ RST

/-- Console summary line for the top consumer (source line 98). -/
def summaryTopLine (top : Device) : String :=
  "  Highest daily consumer       : " ++ top.name ++ " (" ++ consoleTopKwhStr top ++ " kWh/day)"

/-- Tip text of rule 1 (source line 103). -/
def tipLine1 : String := "  • Consider staggering heavy loads to reduce peak usage."

/-- Tip text of rule 2 for the given top-device name (source line 105). -/
def tipLine2 (nm : String) : String :=
  "  • Try reducing " ++ nm ++ " hours or enable energy-saver settings."

/-- Tip text of rule 3 (source line 107). -/
def tipLine3 : String :=
  "  • Tariff is relatively high—small savings on daily kWh translate to meaningful ₹ reductions."

/-- Tip text of rule 4 (source line 109). -/
def tipLine4 : String := "  • Long-running low-watt devices add up—audit always-on equipment."

/-- The tip lines printed under the `Tips:` heading, in the fixed rule
order of the source (lines 102-109); each `if` mirrors one independent rule. -/
def tipsFor (devices : List Device) (tariff : ℚ) (top : Device) : List String :=
  (if 15 < total_kwh_day devices then [tipLine1] else []) ++
    (if 8 < top.hours ∧ 200 < top.watts then [tipLine2 top.name] else []) ++
    (if 9 < tariff then [tipLine3] else []) ++
    (if devices.any (fun d => decide (d.watts < 80) && decide (10 < d.hours)) then [tipLine4]
      else [])

/-- Every console line printed by `summary_and_report` after the `max`
call succeeds (source lines 81-109 and 134), in print order. -/
def consoleLines (devices : List Device) (days : ℤ) (tariff : ℚ) (top : Device) : List String :=
  ["", BOLD ++ "Per-Device Daily Usage" ++ RST, hrule, headerRow, hrule] ++
    devices.map deviceRow ++
    [hrule, "", GRN ++ BOLD ++ "Summary" ++ RST,
      summaryTotalLine devices, summaryCycleLine devices days,
      summaryBillLine devices days tariff, summaryTopLine top,
      "", "Tips:"] ++
    tipsFor devices tariff top ++
    ["\nReport saved to: energy_report.txt"]

/-- File header row: the five column titles, the first left aligned to
width 20 and the rest right aligned to widths 7, 7, 5 and 10, joined by
single spaces (source line 121). -/
def fileHeaderRow : String :=
  pyLjust "Device" 20 ++ " " ++ pyRjust "Watts" 7 ++ " " ++ pyRjust "Hours" 7 ++ " " ++
    pyRjust "Qty" 5 ++ " " ++ pyRjust "kWh/day" 10

/-- Watts column of a report-file row: the truncated watts integer,
right aligned to width 7 (format spec `7d`, source line 124). -/
def fileWattsCell (d : Device) : String := pyRjust (intStr (pyInt d.watts)) 7

/-- Hours column of a report-file row: hours to one decimal place,
right aligned to width 7 (format spec `7.1f`, source line 124). -/
def fileHoursCell (d : Device) : String := pyRjust (fmtFixed d.hours 1) 7

/-- Quantity column of a report-file row: the quantity integer, right
aligned to width 5 (format spec `5d`, source line 124). -/
def fileQtyCell (d : Device) : String := pyRjust (intStr d.qty) 5

/-- kWh/day column of a report-file row: kwh_day to three decimal
places, right aligned to width 10 (format spec `10.3f`, source line 124). -/
def fileKwhCell (d : Device) : String := pyRjust (fmtFixed d.kwh_day 3) 10

/-- One report-file device row (source line 124). -/
def fileDeviceRow (d : Device) : String :=
  pyLjust d.name 20 ++ " " ++ fileWattsCell d ++ " " ++ fileHoursCell d ++ " " ++
    fileQtyCell d ++ " " ++ fileKwhCell d

/-- Total daily kWh as written to the report file (`:.3f`, line 127). -/
def fileTotalStr (devices : List Device) : String := fmtFixed (total_kwh_day devices) 3

/-- Billing-cycle kWh as written to the report file (`:.3f`, line 128). -/
def fileCycleStr (devices : List Device) (days : ℤ) : String :=
  fmtFixed (total_kwh_month devices days) 3

/-- Estimated bill as written to the report file (`:.2f`, no grouping, line 129). -/
def fileBillStr (devices : List Device) (days : ℤ) (tariff : ℚ) : String :=
  fmtFixed (est_bill devices days tariff) 2

/-- Daily kWh of the top device as written to the report file (`:.3f`, line 130). -/
def fileTopKwhStr (top : Device) : String := fmtFixed top.kwh_day 3

/-- The lines written to `energy_report.txt` (source lines 113-131);
`stamp` is the formatted `datetime.now()` timestamp. -/
def fileLines (devices : List Device) (days : ℤ) (tariff : ℚ) (top : Device)
    (stamp : String) : List String :=
  ["Energy Analyzer Report",
    "Generated: " ++ stamp,
    "",
    "Billing days: " ++ intStr days,
    "Tariff (₹/kWh): " ++ floatRepr tariff,
    "",
    "Per-Device Daily Usage:",
    fileHeaderRow] ++
    devices.map fileDeviceRow ++
    ["",
      "Total daily kWh: " ++ fileTotalStr devices,
      "Monthly kWh   : " ++ fileCycleStr devices days,
      "Est. bill (₹) : " ++ fileBillStr devices days tariff,
      "Top device    : " ++ top.name ++ " (" ++ fileTopKwhStr top ++ " kWh/day)"]

/-- Observable effects of one `summary_and_report` call: the console
lines printed, the lines written to `energy_report.txt`, and the device
list as it stands when the call returns. -/
structure RunOut where
  console : List String
  file : List String
  devicesAfter : List Device

/-- Source `summary_and_report(devices, days, tariff)` (lines 74-134).
The totals of lines 76-78 are pure; the first effect is the `max` call of
line 79, which raises `ValueError` on an empty list before anything is
printed or written — modelled by the `Except.error` branch carrying no
output.  The function never assigns to a device record, so the device
list it returns in `devicesAfter` is the input list itself. -/
def summary_and_report (devices : List Device) (days : ℤ) (tariff : ℚ)
    (stamp : String) : Except String RunOut :=
  match pymax devices with
  | none => .error "ValueError: max() arg is an empty sequence"
  | some top =>
      .ok { console := consoleLines devices days tariff top
            file := fileLines devices days tariff top stamp
            devicesAfter := devices }

/-- Placeholder device used as the `List.getD` default in frame lemmas. -/
def defaultDevice : Device := { name := "", watts := 0, hours := 0, qty := 0, kwh_day := 0 }

/-! ## Helper lemmas -/

theorem askIntStep_le {low high : Option ℤ} {s : IntLine} {v : ℤ}
    (h : askIntStep low high s = some v) :
    (∀ l, low = some l → l ≤ v) ∧ ∀ hb, high = some hb → v ≤ hb := by
  cases s with
  | empty => simp [askIntStep] at h
  | bad => simp [askIntStep] at h
  | lit x =>
    by_cases h1 : Option.any (fun l => decide (x < l)) low
    · simp [askIntStep, h1] at h
    · by_cases h2 : Option.any (fun hb => decide (hb < x)) high
      · simp [askIntStep, h1, h2] at h
      · simp only [askIntStep, h1, h2, if_false, Bool.false_eq_true, if_neg,
          Option.some.injEq] at h
        subst h
        refine ⟨fun l hl => ?_, fun hb hh => ?_⟩
        · subst hl
          simp only [Option.any_some, decide_eq_true_eq] at h1
          omega
        · subst hh
          simp only [Option.any_some, decide_eq_true_eq] at h2
          omega

theorem askInt_le {low high : Option ℤ} {v : ℤ} :
    ∀ {lines : List IntLine}, askInt low high lines = some v →
      (∀ l, low = some l → l ≤ v) ∧ ∀ hb, high = some hb → v ≤ hb := by
  intro lines
  induction lines with
  | nil => intro h; simp [askInt] at h
  | cons s rest ih =>
    intro h
    simp only [askInt] at h
    cases hs : askIntStep low high s with
    | none => rw [hs] at h; exact ih h
    | some x => rw [hs] at h; cases h; exact askIntStep_le hs

theorem askFloatStep_not_lt {low high : Option ℚ} {s : FloatLine} {v : PyFloat}
    (h : askFloatStep low high s = some v) :
    (∀ l, low = some l → pyLt v (.finite l) = false) ∧
      ∀ hb, high = some hb → pyLt (.finite hb) v = false := by
  cases s with
  | empty => simp [askFloatStep] at h
  | bad => simp [askFloatStep] at h
  | lit x =>
    by_cases h1 : Option.any (fun l => pyLt x (.finite l)) low
    · simp [askFloatStep, h1] at h
    · by_cases h2 : Option.any (fun hb => pyLt (.finite hb) x) high
      · simp [askFloatStep, h1, h2] at h
      · simp only [askFloatStep, h1, h2, if_false, Bool.false_eq_true, if_neg,
          Option.some.injEq] at h
        subst h
        refine ⟨fun l hl => ?_, fun hb hh => ?_⟩
        · subst hl
          simp only [Option.any_some] at h1
          simpa using h1
        · subst hh
          simp only [Option.any_some] at h2
          simpa using h2

theorem askFloat_not_lt {low high : Option ℚ} {v : PyFloat} :
    ∀ {lines : List FloatLine}, askFloat low high lines = some v →
      (∀ l, low = some l → pyLt v (.finite l) = false) ∧
        ∀ hb, high = some hb → pyLt (.finite hb) v = false := by
  intro lines
  induction lines with
  | nil => intro h; simp [askFloat] at h
  | cons s rest ih =>
    intro h
    simp only [askFloat] at h
    cases hs : askFloatStep low high s with
    | none => rw [hs] at h; exact ih h
    | some x => rw [hs] at h; cases h; exact askFloatStep_not_lt hs

theorem askFloat_le {low high : Option ℚ} {v : ℚ} {lines : List FloatLine}
    (h : askFloat low high lines = some (.finite v)) :
    (∀ l, low = some l → l ≤ v) ∧ ∀ hb, high = some hb → v ≤ hb := by
  obtain ⟨h1, h2⟩ := askFloat_not_lt h
  refine ⟨fun l hl => ?_, fun hb hh => ?_⟩
  · have h3 := h1 l hl
    simp only [pyLt, decide_eq_false_iff_not] at h3
    exact le_of_not_lt h3
  · have h3 := h2 hb hh
    simp only [pyLt, decide_eq_false_iff_not] at h3
    exact le_of_not_lt h3

/-! ## Claims -/

/-- Claim C1: every device produced by `collect_devices` carries
`daily_kwh = watts * hours_per_day * quantity / 1000`, computed from its
own `watts`, `hours` and `qty` fields at collection time. -/
theorem collect_daily_kwh (n : ℕ) (supply : ℕ → DevIn) :
    ∀ d ∈ collect_devices n supply,
      d.kwh_day = d.watts * d.hours * (d.qty : ℚ) / 1000 := by
  intro d hd
  simp only [collect_devices, List.mem_map] at hd
  obtain ⟨j, -, rfl⟩ := hd
  rfl

/-- Witness for C1 at a concrete collection run. -/
theorem collect_daily_kwh_witness :
    mkDevice 1 ⟨"Fan", 75, 10, 2⟩ ∈ collect_devices 1 (fun _ => ⟨"Fan", 75, 10, 2⟩) ∧
      (mkDevice 1 ⟨"Fan", 75, 10, 2⟩).kwh_day =
        (mkDevice 1 ⟨"Fan", 75, 10, 2⟩).watts * (mkDevice 1 ⟨"Fan", 75, 10, 2⟩).hours *
          ((mkDevice 1 ⟨"Fan", 75, 10, 2⟩).qty : ℚ) / 1000 :=
  ⟨by with_unfolding_all decide,
    collect_daily_kwh 1 (fun _ => ⟨"Fan", 75, 10, 2⟩) _ (by with_unfolding_all decide)⟩

/-- Claim C2: for a non-empty device list the aggregate report satisfies
`total_daily_kwh = Σ daily_kwh`, `total_cycle_kwh = total_daily_kwh * days`
and `estimated_bill = total_cycle_kwh * tariff`. -/
theorem report_totals (devices : List Device) (days : ℤ) (tariff : ℚ)
    (_hne : devices ≠ []) :
    total_kwh_day devices = (devices.map (fun d => d.kwh_day)).sum ∧
      total_kwh_month devices days = total_kwh_day devices * (days : ℚ) ∧
      est_bill devices days tariff = total_kwh_month devices days * tariff := by
  refine ⟨?_, rfl, rfl⟩
  rw [List.sum_eq_foldl, List.foldl_map]
  rfl

/-- Witness for C2 at a concrete device list. -/
theorem report_totals_witness :
    (mkDevice 1 ⟨"Fan", 75, 10, 2⟩ :: []) ≠ [] ∧
      (total_kwh_day [mkDevice 1 ⟨"Fan", 75, 10, 2⟩] =
          (([mkDevice 1 ⟨"Fan", 75, 10, 2⟩] : List Device).map (fun d => d.kwh_day)).sum ∧
        total_kwh_month [mkDevice 1 ⟨"Fan", 75, 10, 2⟩] 30 =
          total_kwh_day [mkDevice 1 ⟨"Fan", 75, 10, 2⟩] * ((30 : ℤ) : ℚ) ∧
        est_bill [mkDevice 1 ⟨"Fan", 75, 10, 2⟩] 30 8 =
          total_kwh_month [mkDevice 1 ⟨"Fan", 75, 10, 2⟩] 30 * 8) :=
  ⟨by simp, report_totals [mkDevice 1 ⟨"Fan", 75, 10, 2⟩] 30 8 (by simp)⟩

theorem foldl_maxStep_split (xs : List Device) :
    ∀ x : Device,
      ∃ l1 l2, x :: xs = l1 ++ (xs.foldl maxStep x) :: l2 ∧
        (∀ a ∈ l1, a.kwh_day < (xs.foldl maxStep x).kwh_day) ∧
        ∀ a ∈ l2, a.kwh_day ≤ (xs.foldl maxStep x).kwh_day := by
  induction xs with
  | nil => exact fun x => ⟨[], [], rfl, by simp, by simp⟩
  | cons y ys ih =>
    intro x
    obtain ⟨l1, l2, hdec, hlt, hle⟩ := ih (maxStep x y)
    rw [List.foldl_cons]
    set r := ys.foldl maxStep (maxStep x y) with hr
    have hmem : (maxStep x y).kwh_day ≤ r.kwh_day := by
      cases l1 with
      | nil =>
        simp only [List.nil_append] at hdec
        injection hdec with h1 _
        exact le_of_eq (congrArg Device.kwh_day h1)
      | cons a t =>
        simp only [List.cons_append] at hdec
        injection hdec with h1 _
        rw [h1]
        exact le_of_lt (hlt a (List.mem_cons_self a t))
    by_cases hxy : x.kwh_day < y.kwh_day
    · have hx : maxStep x y = y := if_pos hxy
      refine ⟨x :: l1, l2, ?_, ?_, hle⟩
      · rw [List.cons_append, ← hdec, hx]
      · intro a ha
        rcases List.mem_cons.mp ha with rfl | hal
        · refine lt_of_lt_of_le ?_ hmem
          rw [hx]
          exact hxy
        · exact hlt a hal
    · have hx : maxStep x y = x := if_neg hxy
      have hyx : y.kwh_day ≤ x.kwh_day := le_of_not_lt hxy
      cases l1 with
      | nil =>
        simp only [List.nil_append] at hdec
        injection hdec with h1 h2
        have hxr : r.kwh_day = x.kwh_day := by rw [← h1, hx]
        refine ⟨[], y :: ys, ?_, by simp, ?_⟩
        · rw [List.nil_append, ← h1, hx]
        · intro a ha
          rcases List.mem_cons.mp ha with rfl | hal
          · rw [hxr]
            exact hyx
          · exact hle a (h2 ▸ hal)
      | cons a t =>
        simp only [List.cons_append] at hdec
        injection hdec with h1 h2
        have hxr : x.kwh_day < r.kwh_day := by
          have hm := hlt a (List.mem_cons_self a t)
          rw [← h1, hx] at hm
          exact hm
        refine ⟨x :: y :: t, l2, ?_, ?_, hle⟩
        · rw [h2]
          simp
        · intro b hb
          rcases List.mem_cons.mp hb with rfl | hb2
          · exact hxr
          rcases List.mem_cons.mp hb2 with rfl | hb3
          · exact lt_of_le_of_lt hyx hxr
          · exact hlt b (List.mem_cons_of_mem a hb3)

/-- Claim C3: for a non-empty device list, `max(devices, key=…)` returns
the first device in input order achieving the maximum `daily_kwh`: every
earlier device is strictly smaller and every later one is no larger. -/
theorem top_device_first_max (devices : List Device) (hne : devices ≠ []) :
    ∃ top, pymax devices = some top ∧
      ∃ pre post, devices = pre ++ top :: post ∧
        (∀ a ∈ pre, a.kwh_day < top.kwh_day) ∧
        (∀ a ∈ post, a.kwh_day ≤ top.kwh_day) ∧
        ∀ a ∈ devices, a.kwh_day ≤ top.kwh_day := by
  cases devices with
  | nil => exact absurd rfl hne
  | cons x xs =>
    obtain ⟨l1, l2, hdec, hlt, hle⟩ := foldl_maxStep_split xs x
    refine ⟨xs.foldl maxStep x, rfl, l1, l2, hdec, hlt, hle, ?_⟩
    intro a ha
    rw [hdec] at ha
    rcases List.mem_append.mp ha with h | h
    · exact le_of_lt (hlt a h)
    rcases List.mem_cons.mp h with rfl | h2
    · exact le_refl _
    · exact hle a h2

/-- Witness for C3 at a concrete two-device tie. -/
theorem top_device_first_max_witness :
    (mkDevice 1 ⟨"A", 75, 10, 2⟩ :: mkDevice 2 ⟨"B", 150, 10, 1⟩ :: []) ≠ [] ∧
      (∃ top, pymax [mkDevice 1 ⟨"A", 75, 10, 2⟩, mkDevice 2 ⟨"B", 150, 10, 1⟩] = some top ∧
        ∃ pre post,
          [mkDevice 1 ⟨"A", 75, 10, 2⟩, mkDevice 2 ⟨"B", 150, 10, 1⟩] = pre ++ top :: post ∧
            (∀ a ∈ pre, a.kwh_day < top.kwh_day) ∧
            (∀ a ∈ post, a.kwh_day ≤ top.kwh_day) ∧
            ∀ a ∈ [mkDevice 1 ⟨"A", 75, 10, 2⟩, mkDevice 2 ⟨"B", 150, 10, 1⟩],
              a.kwh_day ≤ top.kwh_day) :=
  ⟨by simp,
    top_device_first_max [mkDevice 1 ⟨"A", 75, 10, 2⟩, mkDevice 2 ⟨"B", 150, 10, 1⟩] (by simp)⟩

theorem tipLine2_get4 (nm : String) : (tipLine2 nm).data[4]? = some 'T' := by
  have hlen : ("  • Try reducing " : String).data.length = 17 := by decide
  rw [tipLine2, String.data_append, String.data_append,
    List.getElem?_append_left (by rw [List.length_append, hlen]; omega),
    List.getElem?_append_left (by rw [hlen]; omega)]
  decide

theorem tipLine2_get5 (nm : String) : (tipLine2 nm).data[5]? = some 'r' := by
  have hlen : ("  • Try reducing " : String).data.length = 17 := by decide
  rw [tipLine2, String.data_append, String.data_append,
    List.getElem?_append_left (by rw [List.length_append, hlen]; omega),
    List.getElem?_append_left (by rw [hlen]; omega)]
  decide

theorem tipLine2_ne1 (nm : String) : tipLine2 nm ≠ tipLine1 := by
  intro h
  have h4 := congrArg (fun s => s.data[4]?) h
  simp only at h4
  rw [tipLine2_get4 nm, show tipLine1.data[4]? = some 'C' from by decide] at h4
  exact absurd (Option.some.inj h4) (by decide)

theorem tipLine2_ne3 (nm : String) : tipLine2 nm ≠ tipLine3 := by
  intro h
  have h5 := congrArg (fun s => s.data[5]?) h
  simp only at h5
  rw [tipLine2_get5 nm, show tipLine3.data[5]? = some 'a' from by decide] at h5
  exact absurd (Option.some.inj h5) (by decide)

theorem tipLine2_ne4 (nm : String) : tipLine2 nm ≠ tipLine4 := by
  intro h
  have h4 := congrArg (fun s => s.data[4]?) h
  simp only at h4
  rw [tipLine2_get4 nm, show tipLine4.data[4]? = some 'L' from by decide] at h4
  exact absurd (Option.some.inj h4) (by decide)

theorem count_if_ne (P : Prop) [Decidable P] {x s : String} (h : s ≠ x) :
    List.count s (if P then [x] else []) = 0 := by
  split
  · simp [List.count_cons, Ne.symm h]
  · rfl

theorem count_if_self (P : Prop) [Decidable P] (s : String) :
    List.count s (if P then [s] else []) = if P then 1 else 0 := by
  split <;> simp

/-- Claim C4: the `Tips:` heading is always printed; the four rules are
evaluated in the fixed order of the source; each rule contributes its line
exactly once when its condition holds and not at all otherwise (rule 4 at
most once over all devices), so toggling the condition of one rule never
changes the contribution of another. -/
theorem tips_rules (devices : List Device) (days : ℤ) (tariff : ℚ) (top : Device) :
    "Tips:" ∈ consoleLines devices days tariff top ∧
      tipsFor devices tariff top =
        (if 15 < total_kwh_day devices then [tipLine1] else []) ++
          (if 8 < top.hours ∧ 200 < top.watts then [tipLine2 top.name] else []) ++
          (if 9 < tariff then [tipLine3] else []) ++
          (if ∃ d ∈ devices, d.watts < 80 ∧ 10 < d.hours then [tipLine4] else []) ∧
      (tipsFor devices tariff top).count tipLine1 =
        (if 15 < total_kwh_day devices then 1 else 0) ∧
      (tipsFor devices tariff top).count (tipLine2 top.name) =
        (if 8 < top.hours ∧ 200 < top.watts then 1 else 0) ∧
      (tipsFor devices tariff top).count tipLine3 = (if 9 < tariff then 1 else 0) ∧
      (tipsFor devices tariff top).count tipLine4 =
        (if ∃ d ∈ devices, d.watts < 80 ∧ 10 < d.hours then 1 else 0) := by
  have hany :
      (devices.any (fun d => decide (d.watts < 80) && decide (10 < d.hours)) = true) ↔
        ∃ d ∈ devices, d.watts < 80 ∧ 10 < d.hours := by
    simp [List.any_eq_true]
  have h13 : tipLine1 ≠ tipLine3 := by decide
  have h14 : tipLine1 ≠ tipLine4 := by decide
  have h34 : tipLine3 ≠ tipLine4 := by decide
  refine ⟨by simp [consoleLines], ?_, ?_, ?_, ?_, ?_⟩
  · simp only [tipsFor, hany]
  · simp only [tipsFor, List.count_append]
    rw [count_if_self, count_if_ne _ (Ne.symm (tipLine2_ne1 top.name)),
      count_if_ne _ h13, count_if_ne _ h14]
    omega
  · simp only [tipsFor, List.count_append]
    rw [count_if_self, count_if_ne _ (tipLine2_ne1 top.name),
      count_if_ne _ (tipLine2_ne3 top.name), count_if_ne _ (tipLine2_ne4 top.name)]
    omega
  · simp only [tipsFor, List.count_append]
    rw [count_if_self, count_if_ne _ (Ne.symm h13),
      count_if_ne _ (Ne.symm (tipLine2_ne3 top.name)), count_if_ne _ h34]
    omega
  · simp only [tipsFor, List.count_append, hany]
    rw [count_if_self, count_if_ne _ (Ne.symm h14),
      count_if_ne _ (Ne.symm (tipLine2_ne4 top.name)), count_if_ne _ (Ne.symm h34)]
    omega

/-- Counterexample to claim C5 as stated: the input text `nan` parses to
a float NaN without `ValueError`; NaN compares false to both bounds in
the range checks of lines 39-44, so `ask_float(low=0, high=24)` accepts
it on the first attempt and returns it — yet the returned value
satisfies neither `low ≤ v` nor `v ≤ high` under the float ordering. -/
theorem validators_bounded_counterexample :
    askFloat (some 0) (some 24) [.lit .nan] = some .nan ∧
      pyLe (.finite 0) .nan = false ∧ pyLe .nan (.finite 24) = false := by
  refine ⟨rfl, rfl, rfl⟩

/-- Claim C5 (amended): `ask_int` only ever returns a value inside the
closed interval given by its bounds, and `ask_float` never returns a
value that compares below `low` or above `high` — in particular every
finite value it returns lies inside the closed interval; empty,
non-numeric and out-of-range attempts are rejected and the loop retries
on the next attempt; the interval boundaries are accepted exactly
(`hours = 24` accepted, `24.01` rejected; `quantity = 1000` accepted,
`1001` rejected); both functions are total over their input stream, so
no exception escapes.  However an input parsing to float NaN passes both
range checks, because every IEEE comparison with NaN is false, and is
returned as-is, escaping the interval guarantee. -/
theorem validators_bounded :
    (∀ (low high : Option ℤ) (lines : List IntLine) (v : ℤ),
        askInt low high lines = some v →
          (∀ l, low = some l → l ≤ v) ∧ ∀ hb, high = some hb → v ≤ hb) ∧
      (∀ (low high : Option ℚ) (lines : List FloatLine) (v : PyFloat),
        askFloat low high lines = some v →
          (∀ l, low = some l → pyLt v (.finite l) = false) ∧
            ∀ hb, high = some hb → pyLt (.finite hb) v = false) ∧
      (∀ (low high : Option ℚ) (lines : List FloatLine) (v : ℚ),
        askFloat low high lines = some (.finite v) →
          (∀ l, low = some l → l ≤ v) ∧ ∀ hb, high = some hb → v ≤ hb) ∧
      (∀ (low high : Option ℤ) (s : IntLine) (rest : List IntLine),
        askIntStep low high s = none → askInt low high (s :: rest) = askInt low high rest) ∧
      (∀ (low high : Option ℚ) (s : FloatLine) (rest : List FloatLine),
        askFloatStep low high s = none → askFloat low high (s :: rest) = askFloat low high rest) ∧
      (∀ (low high : Option ℤ),
        askIntStep low high .empty = none ∧ askIntStep low high .bad = none) ∧
      (∀ (low high : Option ℚ),
        askFloatStep low high .empty = none ∧ askFloatStep low high .bad = none) ∧
      askFloatStep (some 0) (some 24) (.lit (.finite 24)) = some (.finite 24) ∧
      askFloatStep (some 0) (some 24) (.lit (.finite (2401 / 100))) = none ∧
      askIntStep (some 1) (some 1000) (.lit 1000) = some 1000 ∧
      askIntStep (some 1) (some 1000) (.lit 1001) = none ∧
      askFloatStep (some 0) (some 24) (.lit .nan) = some .nan := by
  refine ⟨fun _ _ _ _ h => askInt_le h, fun _ _ _ _ h => askFloat_not_lt h,
    fun _ _ _ _ h => askFloat_le h,
    fun low high s rest h => ?_, fun low high s rest h => ?_,
    fun _ _ => ⟨rfl, rfl⟩, fun _ _ => ⟨rfl, rfl⟩,
    by with_unfolding_all decide, by with_unfolding_all decide,
    by decide, by decide, rfl⟩
  · simp [askInt, h]
  · simp [askFloat, h]

/-- Witness for the amended C5: concrete accepted attempts land inside
their bounds, for the integer and for the finite-float guarantee. -/
theorem validators_bounded_witness :
    askInt (some 1) (some 100) [.bad, .lit 3] = some 3 ∧ (1 : ℤ) ≤ 3 ∧ (3 : ℤ) ≤ 100 ∧
      askFloat (some 0) (some 24) [.empty, .lit (.finite 24)] = some (.finite 24) ∧
      (0 : ℚ) ≤ 24 ∧ (24 : ℚ) ≤ 24 :=
  ⟨by decide,
    (validators_bounded.1 (some 1) (some 100) [.bad, .lit 3] 3 (by decide)).1 1 rfl,
    (validators_bounded.1 (some 1) (some 100) [.bad, .lit 3] 3 (by decide)).2 100 rfl,
    by with_unfolding_all decide,
    (validators_bounded.2.2.1 (some 0) (some 24) [.empty, .lit (.finite 24)] 24
      (by with_unfolding_all decide)).1 0 rfl,
    (validators_bounded.2.2.1 (some 0) (some 24) [.empty, .lit (.finite 24)] 24
      (by with_unfolding_all decide)).2 24 rfl⟩

/-- Claim C7: `summary_and_report` is pure with respect to the device
records: on every successful call the device list afterwards is the
input list, every field of every device unchanged. -/
theorem report_preserves_devices (devices : List Device) (days : ℤ) (tariff : ℚ)
    (stamp : String) (hne : devices ≠ []) :
    ∃ out, summary_and_report devices days tariff stamp = Except.ok out ∧
      out.devicesAfter = devices ∧
      ∀ i : ℕ,
        (out.devicesAfter.getD i defaultDevice).name = (devices.getD i defaultDevice).name ∧
        (out.devicesAfter.getD i defaultDevice).watts = (devices.getD i defaultDevice).watts ∧
        (out.devicesAfter.getD i defaultDevice).hours = (devices.getD i defaultDevice).hours ∧
        (out.devicesAfter.getD i defaultDevice).qty = (devices.getD i defaultDevice).qty ∧
        (out.devicesAfter.getD i defaultDevice).kwh_day =
          (devices.getD i defaultDevice).kwh_day := by
  cases devices with
  | nil => exact absurd rfl hne
  | cons x xs =>
    refine ⟨_, rfl, rfl, fun i => ⟨rfl, rfl, rfl, rfl, rfl⟩⟩

/-- Witness for C7 at a concrete run. -/
theorem report_preserves_devices_witness :
    (mkDevice 1 ⟨"Fan", 75, 10, 2⟩ :: []) ≠ [] ∧
      ∃ out,
        summary_and_report [mkDevice 1 ⟨"Fan", 75, 10, 2⟩] 30 8 "2025-01-01 00:00:00" =
            Except.ok out ∧
          out.devicesAfter = [mkDevice 1 ⟨"Fan", 75, 10, 2⟩] ∧
          ∀ i : ℕ,
            (out.devicesAfter.getD i defaultDevice).name =
              (([mkDevice 1 ⟨"Fan", 75, 10, 2⟩] : List Device).getD i defaultDevice).name ∧
            (out.devicesAfter.getD i defaultDevice).watts =
              (([mkDevice 1 ⟨"Fan", 75, 10, 2⟩] : List Device).getD i defaultDevice).watts ∧
            (out.devicesAfter.getD i defaultDevice).hours =
              (([mkDevice 1 ⟨"Fan", 75, 10, 2⟩] : List Device).getD i defaultDevice).hours ∧
            (out.devicesAfter.getD i defaultDevice).qty =
              (([mkDevice 1 ⟨"Fan", 75, 10, 2⟩] : List Device).getD i defaultDevice).qty ∧
            (out.devicesAfter.getD i defaultDevice).kwh_day =
              (([mkDevice 1 ⟨"Fan", 75, 10, 2⟩] : List Device).getD i defaultDevice).kwh_day :=
  ⟨by simp,
    report_preserves_devices [mkDevice 1 ⟨"Fan", 75, 10, 2⟩] 30 8 "2025-01-01 00:00:00" (by simp)⟩

/-- Claim C9: the device count comes from `ask_int(low=1, high=100)`, so
it is at least 1 and `collect_devices` returns a non-empty list of
exactly that length — the empty-list early return in `main` is
unreachable; and a hypothetical `summary_and_report` call on an empty
list raises `ValueError` at the `max` call of line 79, before any console
line is printed or any report line is written. -/
theorem no_empty_run (lines : List IntLine) (nz : ℤ) (supply : ℕ → DevIn) (days : ℤ)
    (tariff : ℚ) (stamp : String) (h : askInt (some 1) (some 100) lines = some nz) :
    1 ≤ nz ∧ (collect_devices nz.toNat supply).length = nz.toNat ∧
      collect_devices nz.toNat supply ≠ [] ∧
      summary_and_report [] days tariff stamp =
        Except.error "ValueError: max() arg is an empty sequence" := by
  have h1 : 1 ≤ nz := (askInt_le h).1 1 rfl
  refine ⟨h1, by simp [collect_devices], ?_, rfl⟩
  have hlen : (collect_devices nz.toNat supply).length = nz.toNat := by simp [collect_devices]
  intro hempty
  rw [hempty] at hlen
  simp only [List.length_nil] at hlen
  omega

/-- Witness for C9 at a concrete validated device count. -/
theorem no_empty_run_witness :
    askInt (some 1) (some 100) [.lit 2] = some 2 ∧
      ((1 : ℤ) ≤ 2 ∧
        (collect_devices (2 : ℤ).toNat fun _ => ⟨"Fan", 75, 10, 2⟩).length = (2 : ℤ).toNat ∧
        (collect_devices (2 : ℤ).toNat fun _ => ⟨"Fan", 75, 10, 2⟩) ≠ [] ∧
        summary_and_report [] 30 8 "2025-01-01 00:00:00" =
          Except.error "ValueError: max() arg is an empty sequence") :=
  ⟨by decide,
    no_empty_run [.lit 2] 2 (fun _ => ⟨"Fan", 75, 10, 2⟩) 30 8 "2025-01-01 00:00:00" (by decide)⟩

theorem string_length_append (s t : String) : (s ++ t).length = s.length + t.length := by
  cases s with
  | mk a =>
    cases t with
    | mk b => simp [String.length, String.append]

theorem string_length_mk (l : List Char) : (⟨l⟩ : String).length = l.length := rfl

theorem string_data_mk (l : List Char) : (⟨l⟩ : String).data = l := rfl

theorem string_length_data (s : String) : s.length = s.data.length := rfl

theorem pad_length (t : String) (w : ℕ) (hw : 1 ≤ w) : (pad t w).length = w := by
  have ht : t.length = t.data.length := rfl
  rw [pad]
  split
  · next h =>
    have h1 : (⟨t.data.take (w - 1)⟩ : String).length = w - 1 := by
      rw [string_length_mk, List.length_take]
      omega
    have h2 : ("…" : String).length = 1 := by decide
    rw [string_length_append, h1, h2]
    omega
  · next h =>
    have h1 : (⟨List.replicate (w - t.length) ' '⟩ : String).length = w - t.length := by
      rw [string_length_mk, List.length_replicate]
    rw [pyLjust, string_length_append, h1]
    omega

/-- Claim C10 (refuted by the code): the horizontal rule lines are
`"-" * total_width` with `total_width = 57`, while every header and data
row rendered with the `" | "` separators is 61 characters long — the rule
lines are four characters short of full table width for every device. -/
theorem rule_line_width :
    hrule.length = 57 ∧ headerRow.length = 61 ∧
      (∀ d : Device, (deviceRow d).length = 61) ∧ hrule.length ≠ headerRow.length := by
  have hsep : (" | " : String).length = 3 := by decide
  refine ⟨by decide, by decide, ?_, by decide⟩
  intro d
  rw [deviceRow, consoleWattsCell, consoleHoursCell, consoleQtyCell, consoleKwhCell,
    string_length_append, string_length_append, string_length_append, string_length_append,
    string_length_append, string_length_append, string_length_append, string_length_append,
    hsep, pad_length _ w1 (by decide), pad_length _ w2 (by decide),
    pad_length _ w3 (by decide), pad_length _ w4 (by decide), pad_length _ w5 (by decide)]
  decide

theorem string_mk_data (s : String) : (⟨s.data⟩ : String) = s := by
  cases s
  rfl

theorem digChar_props : ∀ d < 10,
    (digChar d).isDigit = true ∧ digChar d ≠ ' ' ∧ digChar d ≠ ',' ∧ digChar d ≠ '.' := by
  decide

theorem natStrAux_digits :
    ∀ (fuel n : ℕ), ∀ c ∈ natStrAux fuel n, ∃ d, d < 10 ∧ c = digChar d := by
  intro fuel
  induction fuel with
  | zero =>
    intro n c hc
    simp [natStrAux] at hc
  | succ fuel ih =>
    intro n c hc
    rw [natStrAux] at hc
    split at hc
    · next h =>
      rcases List.mem_singleton.mp hc with rfl
      exact ⟨n, h, rfl⟩
    · next h =>
      rcases List.mem_append.mp hc with h1 | h1
      · exact ih _ c h1
      · rcases List.mem_singleton.mp h1 with rfl
        exact ⟨n % 10, Nat.mod_lt _ (by omega), rfl⟩

theorem natDigits_digits (n : ℕ) : ∀ c ∈ natDigits n, ∃ d, d < 10 ∧ c = digChar d :=
  natStrAux_digits _ _

theorem fracPad_length : ∀ (k n : ℕ), (fracPad k n).length = k := by
  intro k
  induction k with
  | zero => intro n; rfl
  | succ k ih => intro n; simp [fracPad, ih]

theorem fracPad_digits :
    ∀ (k n : ℕ), n < 10 ^ k → ∀ c ∈ fracPad k n, ∃ d, d < 10 ∧ c = digChar d := by
  intro k
  induction k with
  | zero =>
    intro n _ c hc
    simp [fracPad] at hc
  | succ k ih =>
    intro n hn c hc
    rw [fracPad] at hc
    rcases List.mem_cons.mp hc with rfl | h1
    · refine ⟨n / 10 ^ k, ?_, rfl⟩
      have hp : 0 < 10 ^ k := Nat.pos_pow_of_pos k (by omega)
      rw [Nat.div_lt_iff_lt_mul hp]
      calc n < 10 ^ (k + 1) := hn
        _ = 10 * 10 ^ k := by ring
        _ ≤ 10 * 10 ^ k := le_refl _
    · exact ih (n % 10 ^ k) (Nat.mod_lt _ (Nat.pos_pow_of_pos k (by omega))) c h1

theorem intStr_no_space_comma (m : ℤ) :
    ∀ c ∈ (intStr m).data, c ≠ ' ' ∧ c ≠ ',' := by
  intro c hc
  rw [intStr] at hc
  have hdig : ∀ x ∈ natDigits m.natAbs, x ≠ ' ' ∧ x ≠ ',' := by
    intro x hx
    obtain ⟨d, hd, rfl⟩ := natDigits_digits _ x hx
    exact ⟨(digChar_props d hd).2.1, (digChar_props d hd).2.2.1⟩
  split at hc
  · rw [String.data_append] at hc
    rcases List.mem_append.mp hc with h1 | h1
    · rcases List.mem_singleton.mp h1 with rfl
      exact ⟨by decide, by decide⟩
    · exact hdig c h1
  · exact hdig c hc

theorem fmtFixedL_no_space_comma (q : ℚ) (k : ℕ) :
    ∀ c ∈ fmtFixedL q k, c ≠ ' ' ∧ c ≠ ',' := by
  intro c hc
  rw [fmtFixedL] at hc
  rcases List.mem_append.mp hc with h1 | h1
  · rcases List.mem_append.mp h1 with h2 | h2
    · split at h2
      · rcases List.mem_singleton.mp h2 with rfl
        exact ⟨by decide, by decide⟩
      · simp at h2
    · obtain ⟨d, hd, rfl⟩ := natDigits_digits _ c h2
      exact ⟨(digChar_props d hd).2.1, (digChar_props d hd).2.2.1⟩
  · rcases List.mem_cons.mp h1 with rfl | h3
    · exact ⟨by decide, by decide⟩
    · obtain ⟨d, hd, rfl⟩ :=
        fracPad_digits k _ (Nat.mod_lt _ (Nat.pos_pow_of_pos k (by omega))) c h3
      exact ⟨(digChar_props d hd).2.1, (digChar_props d hd).2.2.1⟩

theorem fmtFixed_no_space (q : ℚ) (k : ℕ) : ∀ c ∈ (fmtFixed q k).data, c ≠ ' ' :=
  fun c hc => (fmtFixedL_no_space_comma q k c hc).1

theorem intStr_no_space (m : ℤ) : ∀ c ∈ (intStr m).data, c ≠ ' ' :=
  fun c hc => (intStr_no_space_comma m c hc).1

theorem dropWhile_replicate_space (k : ℕ) (t : List Char) :
    (List.replicate k ' ' ++ t).dropWhile (fun c => c == ' ') =
      t.dropWhile (fun c => c == ' ') := by
  induction k with
  | zero => rfl
  | succ k ih =>
    rw [List.replicate_succ, List.cons_append, List.dropWhile_cons]
    simp only [beq_self_eq_true, if_true]
    exact ih

theorem dropWhile_eq_self_of (t : List Char) (h : ∀ c ∈ t, c ≠ ' ') :
    t.dropWhile (fun c => c == ' ') = t := by
  cases t with
  | nil => rfl
  | cons c r => simp [List.dropWhile_cons, h c (List.mem_cons_self c r)]

theorem pyLjust_data (s : String) (w : ℕ) :
    (pyLjust s w).data = s.data ++ List.replicate (w - s.length) ' ' := by
  rw [pyLjust, String.data_append, string_data_mk]

theorem pyRjust_data (s : String) (w : ℕ) :
    (pyRjust s w).data = List.replicate (w - s.length) ' ' ++ s.data := by
  rw [pyRjust, String.data_append, string_data_mk]

theorem trim_list_r (t : List Char) (k : ℕ) (h : ∀ c ∈ t, c ≠ ' ') :
    ((List.dropWhile (fun c => c == ' ') (List.replicate k ' ' ++ t)).reverse.dropWhile
      (fun c => c == ' ')).reverse = t := by
  rw [dropWhile_replicate_space, dropWhile_eq_self_of _ h,
    dropWhile_eq_self_of _ (fun c hc => h c (List.mem_reverse.mp hc)), List.reverse_reverse]

theorem trim_list_l (t : List Char) (k : ℕ) (h : ∀ c ∈ t, c ≠ ' ') :
    ((List.dropWhile (fun c => c == ' ') (t ++ List.replicate k ' ')).reverse.dropWhile
      (fun c => c == ' ')).reverse = t := by
  cases t with
  | nil =>
    have hrep : List.dropWhile (fun c => c == ' ') (List.replicate k ' ') = [] := by
      have h0 := dropWhile_replicate_space k ([] : List Char)
      rw [List.append_nil] at h0
      rw [h0]
      rfl
    rw [List.nil_append, hrep]
    rfl
  | cons c r =>
    have hc : (c == ' ') = false := by
      simpa using h c (List.mem_cons_self c r)
    rw [List.cons_append, List.dropWhile_cons, hc]
    simp only [Bool.false_eq_true, if_false]
    rw [← List.cons_append, List.reverse_append, List.reverse_replicate,
      dropWhile_replicate_space,
      dropWhile_eq_self_of _ (fun x hx => h x (List.mem_reverse.mp hx)),
      List.reverse_reverse]

theorem trimS_rjust (s : String) (w : ℕ) (h : ∀ c ∈ s.data, c ≠ ' ') :
    trimS (pyRjust s w) = s := by
  rw [trimS, pyRjust_data, trim_list_r _ _ h]

theorem trimS_ljust (s : String) (w : ℕ) (h : ∀ c ∈ s.data, c ≠ ' ') :
    trimS (pyLjust s w) = s := by
  rw [trimS, pyLjust_data, trim_list_l _ _ h]

theorem pad_eq_of_fit (s : String) (w : ℕ) (h : s.length ≤ w) : pad s w = pyLjust s w := by
  rw [pad, if_neg (by omega)]

theorem trim_cell (s : String) (wc wf : ℕ) (hfit : s.length ≤ wc)
    (h : ∀ c ∈ s.data, c ≠ ' ') : trimS (pad s wc) = trimS (pyRjust s wf) := by
  rw [pad_eq_of_fit s wc hfit, trimS_ljust s wc h, trimS_rjust s wf h]

theorem groupRev_filter :
    ∀ (n : ℕ) (l : List Char), l.length ≤ n → (∀ c ∈ l, c ≠ ',') →
      (groupRev l).filter (fun c => !(c == ',')) = l := by
  intro n
  induction n with
  | zero =>
    intro l hl hc
    have h0 : l = [] := List.eq_nil_of_length_eq_zero (Nat.le_zero.mp hl)
    subst h0
    rw [groupRev]
    rfl
  | succ n ih =>
    intro l hl hc
    rw [groupRev]
    split
    · next h =>
      exact List.filter_eq_self.mpr fun c hcm => by simp [hc c hcm]
    · next h =>
      rw [List.filter_append, List.filter_cons]
      rw [if_neg (by decide)]
      rw [List.filter_eq_self.mpr (fun c hcm => by simp [hc c (List.take_subset 3 l hcm)]),
        ih (l.drop 3) (by rw [List.length_drop]; omega)
          (fun c hcm => hc c (List.drop_subset 3 l hcm)),
        List.take_append_drop]

theorem groupDigits_filter (l : List Char) (hc : ∀ c ∈ l, c ≠ ',') :
    (groupDigits l).filter (fun c => !(c == ',')) = l := by
  rw [groupDigits, List.filter_reverse,
    groupRev_filter l.reverse.length l.reverse (le_refl _)
      (fun c hcm => hc c (List.mem_reverse.mp hcm)),
    List.reverse_reverse]

theorem stripCommas_grouped (q : ℚ) : stripCommas (fmtGrouped2 q) = fmtFixed q 2 := by
  rw [stripCommas, fmtGrouped2, fmtFixed, string_data_mk]
  apply congrArg String.mk
  rw [fmtGrouped2L, fmtFixedL]
  rw [List.filter_append, List.filter_append, List.filter_cons,
    if_pos (show ((!('.' == ',')) = true) by decide)]
  have hsign : ∀ P : Prop, ∀ inst : Decidable P,
      (if P then ['-'] else []).filter (fun c => !(c == ',')) = if P then ['-'] else [] := by
    intro P inst
    split <;> rfl
  rw [hsign]
  have hdig : ∀ x : ℕ, ∀ c ∈ natDigits x, c ≠ ',' := by
    intro x c hcm
    obtain ⟨d, hd, rfl⟩ := natDigits_digits _ c hcm
    exact (digChar_props d hd).2.2.1
  rw [groupDigits_filter _ (hdig _)]
  rw [List.filter_eq_self.mpr fun c hcm => by
    obtain ⟨d, hd, rfl⟩ :=
      fracPad_digits 2 _ (Nat.mod_lt _ (by norm_num)) c hcm
    simp [(digChar_props d hd).2.2.1]]

/-- Counterexample to claim C6 as stated: for the validated input
`watts = 12345678` (hours 1, qty 1) the watts cell of the console table is
ellipsis-truncated to seven characters, so the value printed in the
console differs from the value written to the report file. -/
theorem mirrored_numbers_counterexample :
    trimS (consoleWattsCell (mkDevice 1 ⟨"Big", 12345678, 1, 1⟩)) ≠
      trimS (fileWattsCell (mkDevice 1 ⟨"Big", 12345678, 1, 1⟩)) := by
  with_unfolding_all decide

/-- Claim C6 (amended): provided the rendered text of each numeric cell fits
its console column width (otherwise the console `pad` truncates it with
an ellipsis while the file keeps it whole), every numeric value of the
report file — total daily kWh, billing-cycle kWh, estimated bill, top
daily kWh of the top device and the per-row watts / hours / qty / kWh-day —
is identical, with identical rounding, to the console value, the bill
differing only in the thousands grouping that the console adds. -/
theorem mirrored_numbers (devices : List Device) (days : ℤ) (tariff : ℚ) (top : Device)
    (hfit : ∀ d ∈ devices,
      (intStr (pyInt d.watts)).length ≤ 7 ∧ (fmtFixed d.hours 1).length ≤ 7 ∧
        (intStr d.qty).length ≤ 5 ∧ (fmtFixed d.kwh_day 3).length ≤ 10) :
    consoleTotalStr devices = fileTotalStr devices ∧
      consoleCycleStr devices days = fileCycleStr devices days ∧
      stripCommas (consoleBillStr devices days tariff) = fileBillStr devices days tariff ∧
      consoleTopKwhStr top = fileTopKwhStr top ∧
      ∀ d ∈ devices,
        trimS (consoleWattsCell d) = trimS (fileWattsCell d) ∧
        trimS (consoleHoursCell d) = trimS (fileHoursCell d) ∧
        trimS (consoleQtyCell d) = trimS (fileQtyCell d) ∧
        trimS (consoleKwhCell d) = trimS (fileKwhCell d) := by
  refine ⟨rfl, rfl, stripCommas_grouped _, rfl, ?_⟩
  intro d hd
  obtain ⟨hw, hh, hq, hk⟩ := hfit d hd
  exact ⟨trim_cell _ w2 7 hw (intStr_no_space _),
    trim_cell _ w3 7 hh (fmtFixed_no_space _ _),
    trim_cell _ w4 5 hq (intStr_no_space _),
    trim_cell _ w5 10 hk (fmtFixed_no_space _ _)⟩

/-- Witness for the amended C6 at a concrete run. -/
theorem mirrored_numbers_witness :
    (∀ d ∈ [mkDevice 1 ⟨"Fan", 75, 10, 2⟩],
        (intStr (pyInt d.watts)).length ≤ 7 ∧ (fmtFixed d.hours 1).length ≤ 7 ∧
          (intStr d.qty).length ≤ 5 ∧ (fmtFixed d.kwh_day 3).length ≤ 10) ∧
      (consoleTotalStr [mkDevice 1 ⟨"Fan", 75, 10, 2⟩] =
          fileTotalStr [mkDevice 1 ⟨"Fan", 75, 10, 2⟩] ∧
        consoleCycleStr [mkDevice 1 ⟨"Fan", 75, 10, 2⟩] 30 =
          fileCycleStr [mkDevice 1 ⟨"Fan", 75, 10, 2⟩] 30 ∧
        stripCommas (consoleBillStr [mkDevice 1 ⟨"Fan", 75, 10, 2⟩] 30 8) =
          fileBillStr [mkDevice 1 ⟨"Fan", 75, 10, 2⟩] 30 8 ∧
        consoleTopKwhStr (mkDevice 1 ⟨"Fan", 75, 10, 2⟩) =
          fileTopKwhStr (mkDevice 1 ⟨"Fan", 75, 10, 2⟩) ∧
        ∀ d ∈ [mkDevice 1 ⟨"Fan", 75, 10, 2⟩],
          trimS (consoleWattsCell d) = trimS (fileWattsCell d) ∧
          trimS (consoleHoursCell d) = trimS (fileHoursCell d) ∧
          trimS (consoleQtyCell d) = trimS (fileQtyCell d) ∧
          trimS (consoleKwhCell d) = trimS (fileKwhCell d)) :=
  ⟨by with_unfolding_all decide,
    mirrored_numbers [mkDevice 1 ⟨"Fan", 75, 10, 2⟩] 30 8 (mkDevice 1 ⟨"Fan", 75, 10, 2⟩)
      (by with_unfolding_all decide)⟩

theorem qfloor_eq_floor (q : ℚ) : qfloor q = ⌊q⌋ := by
  rw [qfloor, Rat.floor_def]

theorem pyInt_trunc (q : ℚ) (hq : 0 ≤ q) : (pyInt q : ℚ) ≤ q ∧ q < (pyInt q : ℚ) + 1 := by
  have h : pyInt q = ⌊q⌋ := by rw [pyInt, if_neg (not_lt.mpr hq), qfloor_eq_floor]
  rw [h]
  exact ⟨Int.floor_le q, Int.lt_floor_add_one q⟩

/-- Specification predicate for "rendered with exactly `k` decimal
places": the text is some prefix without a dot, one dot, then exactly `k`
digit characters. -/
def hasDecimals (s : String) (k : ℕ) : Prop :=
  ∃ pre post, s.data = pre ++ '.' :: post ∧ post.length = k ∧
    (∀ c ∈ post, c.isDigit = true) ∧ ∀ c ∈ pre, c ≠ '.'

theorem fmtFixed_hasDecimals (q : ℚ) (k : ℕ) : hasDecimals (fmtFixed q k) k := by
  refine ⟨(if rhe (q * (10 : ℚ) ^ k) < 0 then ['-'] else []) ++
      natDigits ((rhe (q * (10 : ℚ) ^ k)).natAbs / 10 ^ k),
    fracPad k ((rhe (q * (10 : ℚ) ^ k)).natAbs % 10 ^ k), ?_, fracPad_length _ _, ?_, ?_⟩
  · rw [fmtFixed, string_data_mk, fmtFixedL]
  · intro c hcm
    obtain ⟨d, hd, rfl⟩ :=
      fracPad_digits k _ (Nat.mod_lt _ (Nat.pos_pow_of_pos k (by omega))) c hcm
    exact (digChar_props d hd).1
  · intro c hcm
    rcases List.mem_append.mp hcm with h1 | h1
    · split at h1
      · rcases List.mem_singleton.mp h1 with rfl
        decide
      · simp at h1
    · obtain ⟨d, hd, rfl⟩ := natDigits_digits _ c h1
      exact (digChar_props d hd).2.2.2

/-- Counterexample to claim C8 as stated: for the validated input
`watts = 20000000000, hours = 24, qty = 1000` the daily kWh renders as
`480000000000.000`, wider than the 10-character console column, so the
printed cell is the ellipsis-truncated `480000000…` — it contains no
decimal point at all, hence the console table does not show this kWh/day
value with three decimal places (the report file still does). -/
theorem render_formats_counterexample :
    ¬ ('.' ∈ (consoleKwhCell (mkDevice 1 ⟨"Heater", 20000000000, 24, 1000⟩)).data) ∧
      '.' ∈ (fileKwhCell (mkDevice 1 ⟨"Heater", 20000000000, 24, 1000⟩)).data := by
  with_unfolding_all decide

/-- Claim C8 (amended): in both output surfaces the watts value is the
integer obtained by truncating (not rounding) the fractional part, hours
carry exactly 1 decimal place and kWh/day exactly 3 — for the console
table cells provided the rendered text fits the column width, since wider
text is ellipsis-truncated by `pad`. -/
theorem render_formats (d : Device) (hw : 0 ≤ d.watts) :
    ((pyInt d.watts : ℚ) ≤ d.watts ∧ d.watts < (pyInt d.watts : ℚ) + 1) ∧
      trimS (fileWattsCell d) = intStr (pyInt d.watts) ∧
      ((intStr (pyInt d.watts)).length ≤ 7 →
        trimS (consoleWattsCell d) = intStr (pyInt d.watts)) ∧
      hasDecimals (fmtFixed d.hours 1) 1 ∧
      hasDecimals (fmtFixed d.kwh_day 3) 3 ∧
      trimS (fileHoursCell d) = fmtFixed d.hours 1 ∧
      ((fmtFixed d.hours 1).length ≤ 7 → trimS (consoleHoursCell d) = fmtFixed d.hours 1) ∧
      trimS (fileKwhCell d) = fmtFixed d.kwh_day 3 ∧
      ((fmtFixed d.kwh_day 3).length ≤ 10 →
        trimS (consoleKwhCell d) = fmtFixed d.kwh_day 3) := by
  refine ⟨pyInt_trunc d.watts hw, trimS_rjust _ _ (intStr_no_space _), ?_,
    fmtFixed_hasDecimals _ _, fmtFixed_hasDecimals _ _,
    trimS_rjust _ _ (fmtFixed_no_space _ _), ?_,
    trimS_rjust _ _ (fmtFixed_no_space _ _), ?_⟩
  · intro hfit
    rw [consoleWattsCell, pad_eq_of_fit _ w2 hfit, trimS_ljust _ _ (intStr_no_space _)]
  · intro hfit
    rw [consoleHoursCell, pad_eq_of_fit _ w3 hfit, trimS_ljust _ _ (fmtFixed_no_space _ _)]
  · intro hfit
    rw [consoleKwhCell, pad_eq_of_fit _ w5 hfit, trimS_ljust _ _ (fmtFixed_no_space _ _)]

/-- Witness for the amended C8 at a concrete device with fractional
watts (`75.5` truncates to `75`) and fractional hours. -/
theorem render_formats_witness :
    (0 : ℚ) ≤ (mkDevice 1 ⟨"Fan", 151 / 2, 41 / 4, 2⟩).watts ∧
      (((pyInt (mkDevice 1 ⟨"Fan", 151 / 2, 41 / 4, 2⟩).watts : ℚ) ≤
            (mkDevice 1 ⟨"Fan", 151 / 2, 41 / 4, 2⟩).watts ∧
          (mkDevice 1 ⟨"Fan", 151 / 2, 41 / 4, 2⟩).watts <
            (pyInt (mkDevice 1 ⟨"Fan", 151 / 2, 41 / 4, 2⟩).watts : ℚ) + 1) ∧
        trimS (fileWattsCell (mkDevice 1 ⟨"Fan", 151 / 2, 41 / 4, 2⟩)) =
          intStr (pyInt (mkDevice 1 ⟨"Fan", 151 / 2, 41 / 4, 2⟩).watts) ∧
        ((intStr (pyInt (mkDevice 1 ⟨"Fan", 151 / 2, 41 / 4, 2⟩).watts)).length ≤ 7 →
          trimS (consoleWattsCell (mkDevice 1 ⟨"Fan", 151 / 2, 41 / 4, 2⟩)) =
            intStr (pyInt (mkDevice 1 ⟨"Fan", 151 / 2, 41 / 4, 2⟩).watts)) ∧
        hasDecimals (fmtFixed (mkDevice 1 ⟨"Fan", 151 / 2, 41 / 4, 2⟩).hours 1) 1 ∧
        hasDecimals (fmtFixed (mkDevice 1 ⟨"Fan", 151 / 2, 41 / 4, 2⟩).kwh_day 3) 3 ∧
        trimS (fileHoursCell (mkDevice 1 ⟨"Fan", 151 / 2, 41 / 4, 2⟩)) =
          fmtFixed (mkDevice 1 ⟨"Fan", 151 / 2, 41 / 4, 2⟩).hours 1 ∧
        ((fmtFixed (mkDevice 1 ⟨"Fan", 151 / 2, 41 / 4, 2⟩).hours 1).length ≤ 7 →
          trimS (consoleHoursCell (mkDevice 1 ⟨"Fan", 151 / 2, 41 / 4, 2⟩)) =
            fmtFixed (mkDevice 1 ⟨"Fan", 151 / 2, 41 / 4, 2⟩).hours 1) ∧
        trimS (fileKwhCell (mkDevice 1 ⟨"Fan", 151 / 2, 41 / 4, 2⟩)) =
          fmtFixed (mkDevice 1 ⟨"Fan", 151 / 2, 41 / 4, 2⟩).kwh_day 3 ∧
        ((fmtFixed (mkDevice 1 ⟨"Fan", 151 / 2, 41 / 4, 2⟩).kwh_day 3).length ≤ 10 →
          trimS (consoleKwhCell (mkDevice 1 ⟨"Fan", 151 / 2, 41 / 4, 2⟩)) =
            fmtFixed (mkDevice 1 ⟨"Fan", 151 / 2, 41 / 4, 2⟩).kwh_day 3)) :=
  ⟨by with_unfolding_all decide,
    render_formats (mkDevice 1 ⟨"Fan", 151 / 2, 41 / 4, 2⟩) (by with_unfolding_all decide)⟩

end EnergyAnalyzer
